import Mathlib

/-!
Shallow embedding of the interview-preparation bot's orchestration core
(`src/bot/core.py` and `src/bot/bot.py`).

Modelling conventions:
* Python's mutable `Node` attributes (`response_content`, `response_id`,
  `last_answered`, `time_taken`) live in a `World` state, keyed by node id
  (node ids are distinct within every chain the program builds).
* `time.time()` is modelled as a strictly increasing logical clock (`Int`);
  each read returns the current clock and increments it.
* The completion service `client.responses.create` is an oracle
  `svc : Nat → Option Resp` indexed by the number of requests issued so far;
  `none` models the call raising an exception.
* The filesystem is a map from path to file data; `open(f, "w")` overwrites.
* Background threads are modelled sequentially: `answer_for_project` performs
  only the locked check-and-register step (the `Thread.start()` call is
  recorded in a `spawned` log), and the thread body `_answer_for_project` is a
  separate state transformer that a caller runs afterwards.
* `Question.threads = {}` in the Python source is declared in the class body
  WITHOUT a type annotation, so it is a class attribute: one dictionary shared
  by every `Question` instance. It is therefore a single global field of
  `World`, not a per-`Question` field.
-/

namespace SDL

/-- One response from the completion service (the result of
`client.responses.create`): an opaque id plus the generated text. -/
structure Resp where
  id : String
  output_text : String
deriving Repr, DecidableEq

/-- The immutable data of a `Node` as set by `Node.__init__` in `core.py`:
id, title, model, question text and the instruction flag. -/
structure NodeData where
  id : String
  title : String
  model : String
  question : String
  is_instruction : Bool
deriving Repr, DecidableEq

/-- A `Node` with its single optional parent back-reference (`core.py` line 30).
The inductive structure makes parent chains finite, which is how the chain
builders in `bot.py` construct them (each node references an already-built
parent, so no cycles can arise). -/
inductive Node where
  | root (data : NodeData)
  | child (data : NodeData) (parent : Node)
deriving Repr, DecidableEq

def Node.data : Node → NodeData
  | .root d => d
  | .child d _ => d

def Node.parentOpt : Node → Option Node
  | .root _ => none
  | .child _ p => p

/-- Python's `Node.root` property: follow parent links to the chain root. -/
def Node.rootNode : Node → Node
  | .root d => .root d
  | .child _ p => p.rootNode

/-- Number of nodes in the chain from this node up to the root. -/
def Node.chainLength : Node → Nat
  | .root _ => 1
  | .child _ p => 1 + p.chainLength

/-- The node data along the chain, newest first (this node down to the root). -/
def Node.chainData : Node → List NodeData
  | .root d => [d]
  | .child d p => d :: p.chainData

/-- The mutable per-node attributes set by `Node.__init__` and updated by
`callnode`: `response_content`, `response_id` (the `.id` of `node.response`,
`none` while `node.response` is unset), `last_answered`, `time_taken`. -/
structure NodeVars where
  response_content : String
  response_id : Option String
  last_answered : Int
  time_taken : Int
deriving Repr, DecidableEq

/-- Initial attribute values from `Node.__init__`:
`response_content = ""`, no response object, `last_answered = -1`,
`time_taken = 0`. -/
def initVars : NodeVars := ⟨"", none, -1, 0⟩

/-- A request issued to the completion service: the `params` dict built in
`callnode` (`core.py` lines 60-75). The constant `temperature=0.7` is part of
every request and is omitted from the embedding since it never varies. -/
structure Request where
  model : String
  input : String
  instructions : Option String
  previous_response_id : Option String
deriving Repr, DecidableEq

/-- The `qinfo` object produced by `Question.to_json` (`core.py` lines 112-121). -/
structure QInfo where
  area : String
  subtopic : String
  id : String
  tags : List String
  content : String
deriving Repr, DecidableEq

/-- One entry of the `nodes` list in `info.json`: `Node.to_json` output
(`core.py` lines 33-44) plus the `contentfile` key added by
`save_node_content`. In `Node.to_json` itself the `contentfile` key is absent,
modelled as `""`. -/
structure NodeInfo where
  model : String
  title : String
  question : String
  parentid : Option String
  is_instruction : Bool
  last_answered : Int
  time_taken : Int
  id : String
  response : String
  contentfile : String
deriving Repr, DecidableEq

/-- The metadata document written to `info.json` by `save_answer_meta`. -/
structure MetaInfo where
  qinfo : QInfo
  project : String
  nodes : List NodeInfo
deriving Repr, DecidableEq

/-- Contents of a file on disk: plain text (markdown) or the serialized
`info.json` document. -/
inductive FileData where
  | text (s : String)
  | json (info : MetaInfo)
deriving Repr, DecidableEq

/-- Global mutable state: per-node-id attributes, the filesystem, the
class-level `Question.threads` registry (keys only; the dict values are thread
objects), a log of `Thread.start()` calls, the log of requests issued to the
completion service, and the logical clock. -/
structure World where
  vars : String → NodeVars
  files : String → Option FileData
  threads : List String
  spawned : List String
  log : List Request
  clock : Int

def initWorld : World :=
  { vars := fun _ => initVars, files := fun _ => none
  , threads := [], spawned := [], log := [], clock := 0 }

/-- `time.time()`: returns the current clock value and advances it. -/
def now (w : World) : Int × World := (w.clock, { w with clock := w.clock + 1 })

def setVars (w : World) (id : String) (f : NodeVars → NodeVars) : World :=
  { w with vars := fun x => if x = id then f (w.vars x) else w.vars x }

/-- `open(path, "w"); write(d)`: overwrites any existing file. -/
def writeFile (w : World) (path : String) (d : FileData) : World :=
  { w with files := fun x => if x = path then some d else w.files x }

/-- The type of the `callback` argument of `callnode`. -/
def Callback : Type := Node → World → World

/-- The straight-line tail of `callnode` (`core.py` lines 59-84), run after
any parent dispatch: read `start_time`, build the `params` for this node
(instruction channel from an instruction parent, else the parent's
`response.id`), issue the `create` call, record the response fields and
timings, and invoke the callback. -/
def callnode_issue (svc : Nat → Option Resp) (cb : Option Callback) (node : Node)
    (w2 : World) : Except World (World × Resp) :=
  let tw2 := now w2
  let start_time := tw2.1
  let paramres : Except World Request :=
    match node with
    | .root d => .ok ⟨d.model, d.question, none, none⟩
    | .child d par =>
        if par.data.is_instruction then
          .ok ⟨d.model, d.question, some par.data.question, none⟩
        else
          match (tw2.2.vars par.data.id).response_id with
          | none => .error tw2.2
          | some rid => .ok ⟨d.model, d.question, none, some rid⟩
  match paramres with
  | .error w => .error w
  | .ok req =>
    let idx := tw2.2.log.length
    let w4 : World := { tw2.2 with log := tw2.2.log ++ [req] }
    match svc idx with
    | none => .error w4
    | some resp =>
      let w5 := setVars w4 node.data.id fun v =>
        { v with response_id := some resp.id, response_content := resp.output_text }
      let tw3 := now w5
      let w6 := setVars tw3.2 node.data.id fun v => { v with time_taken := tw3.1 - start_time }
      let tw4 := now w6
      let w7 := setVars tw4.2 node.data.id fun v => { v with last_answered := tw4.1 }
      let w8 := match cb with
        | some f => f node w7
        | none => w7
      .ok (w8, resp)

/-- `callnode(node, t=-1, callback=None)` from `core.py` lines 52-84.

* If `t < 0`, `t` is replaced by the current time.
* If the node has a parent that is not an instruction carrier and whose
  `last_answered` is older than `t`, the parent is dispatched first
  (recursively, same `t` and callback).
* Then the node's own request is always issued (`callnode_issue`): `input` is
  the node's question; if the parent is an instruction carrier its question is
  passed as `instructions`, otherwise `previous_response_id` references the
  parent's response (an `AttributeError`, i.e. `.error`, if the parent has
  none).
* On success the node's response fields, `time_taken` and `last_answered` are
  set and the callback (if any) is invoked; the response is returned.
* A failing `create` call (the oracle returning `none`) raises: `.error`
  carries the state at the point of the exception. -/
def callnode (svc : Nat → Option Resp) (cb : Option Callback) :
    Node → Int → World → Except World (World × Resp)
  | node, t0, w0 =>
    let tw := if t0 < 0 then now w0 else (t0, w0)
    let t := tw.1
    match node with
    | .child dd par =>
        if (tw.2.vars par.data.id).last_answered < t ∧ ¬ par.data.is_instruction then
          match callnode svc cb par t tw.2 with
          | .error w => .error w
          | .ok (w, _) => callnode_issue svc cb (.child dd par) w
        else callnode_issue svc cb (.child dd par) tw.2
    | .root dd => callnode_issue svc cb (.root dd) tw.2

/-- The world in which an invocation of `callnode` left the system, whether it
returned normally or raised. -/
def exceptWorld : Except World (World × Resp) → World
  | .error w => w
  | .ok (w, _) => w

def Except.isErr : Except World (World × Resp) → Bool
  | .error _ => true
  | .ok _ => false

/-- `Project` dataclass from `core.py`. -/
structure Project where
  company : String
  name : String
  timeline : String
  description : String := ""
deriving Repr, DecidableEq

/-- The `Question` dataclass fields from `core.py` lines 93-103. The `lock`
field and the class-level `threads` dict are not per-instance data: the lock
is modelled by sequential execution of the check-and-register step, and
`threads` is declared without a type annotation in the Python class body, so
it is a single class attribute shared by all instances — modelled as
`World.threads`. -/
structure Question where
  rootfolder : String
  area : String
  subtopic : String
  content : String
  id : String
  tags : Option (List String) := none
  projects : List Project := []
  leafnodes : List (String × Node) := []
deriving Repr, DecidableEq

/-- Attribute access `self.threads` on a `Question` instance: no instance
attribute is ever bound (the code only mutates the dict in place), so lookup
always reaches the shared class attribute. -/
def Question.getThreads (_q : Question) (w : World) : List String := w.threads

/-- Characters stripped by Python's `str.strip()`. -/
def isPySpace (c : Char) : Bool :=
  c = ' ' || c = '\t' || c = '\n' || c = '\r' || c = '\x0b' || c = '\x0c'

/-- Python `s.strip()`: remove leading and trailing whitespace. -/
def pystrip (s : String) : String :=
  String.mk (((s.data.dropWhile isPySpace).reverse.dropWhile isPySpace).reverse)

/-- Split a character list at every character satisfying `sep`, keeping empty
pieces, mirroring Python's `s.split(sep)` for a one-character separator. -/
def splitChars (sep : Char → Bool) : List Char → List Char → List (List Char)
  | [], acc => [acc.reverse]
  | c :: cs, acc =>
      if sep c then acc.reverse :: splitChars sep cs []
      else splitChars sep cs (c :: acc)

/-- Python `s.split(" ")`: split at every single space, keeping empty pieces. -/
def pysplitSpace (s : String) : List String :=
  (splitChars (fun c => c = ' ') s.data []).map String.mk

/-- `[p.strip() for p in s.split(" ") if p.strip()]`: split on single spaces,
strip each piece, keep the non-empty ones. -/
def spaceTokens (s : String) : List String :=
  ((pysplitSpace s).map pystrip).filter (fun p => p ≠ "")

/-- Python `s.split()` with no argument: the maximal runs of non-whitespace
characters. Used only to state claims about "non-whitespace tokens". -/
def wsTokens (s : String) : List String :=
  ((splitChars isPySpace s.data []).map String.mk).filter (fun p => p ≠ "")

/-- `Question.base_id` (`core.py` lines 106-110). -/
def Question.base_id (q : Question) : String :=
  let area := String.intercalate "_" (spaceTokens q.area)
  let subtopic := String.intercalate "_" (spaceTokens q.subtopic)
  area ++ "_____" ++ subtopic ++ "_____" ++ q.id

/-- `Question.to_json` (`core.py` lines 112-121): the `qinfo` object. -/
def Question.to_json (q : Question) : QInfo :=
  ⟨q.area, q.subtopic, q.id, q.tags.getD [], q.content⟩

/-- `Node.to_json` (`core.py` lines 33-44), reading the mutable fields from
the world. The `contentfile` key does not exist yet at this point (`""`). -/
def Node.to_json (w : World) (n : Node) : NodeInfo :=
  { model := n.data.model, title := n.data.title, question := n.data.question
  , parentid := n.parentOpt.map (fun p => p.data.id)
  , is_instruction := n.data.is_instruction
  , last_answered := (w.vars n.data.id).last_answered
  , time_taken := (w.vars n.data.id).time_taken
  , id := n.data.id
  , response := (w.vars n.data.id).response_content
  , contentfile := "" }

/-- `self.leafnodes[project.name]` (a `KeyError` in Python when absent,
modelled as `none`; every run in this development has the key registered). -/
def Question.leafFor (q : Question) (pname : String) : Option Node :=
  (q.leafnodes.find? (fun kv => kv.1 = pname)).map (fun kv => kv.2)

/-- `Question.folder_for_project` (`core.py` lines 133-145). `os.path.join`
is modelled as "/"-joining (no component in this program is absolute or
empty). Directory creation has no effect on the file map. -/
def Question.folder_for_project (q : Question) (project : Project) : String :=
  let area := String.intercalate "_" (spaceTokens q.area)
  let subtopic := String.intercalate "_" (spaceTokens q.subtopic)
  let pname := String.join (spaceTokens project.name)
  q.rootfolder ++ "/" ++ (area ++ "_____" ++ subtopic ++ "_____" ++ q.id) ++ "/" ++ pname

/-- `Question.path_for_project_file` (`core.py` lines 147-150). -/
def Question.path_for_project_file (q : Question) (project : Project)
    (name ext : String) : String :=
  let fname := if ext = "" then name else name ++ "." ++ ext
  q.folder_for_project project ++ "/" ++ fname

/-- `Question.add_project` (`core.py` lines 123-131): append the project and
register its leaf node (lock creation and folder creation are stateless in
this model). -/
def Question.add_project (q : Question) (proj : Project) (leaf : Node) : Question :=
  { q with projects := q.projects ++ [proj]
         , leafnodes := q.leafnodes ++ [(proj.name, leaf)] }

/-- `Question.save_node_content` (`core.py` lines 215-223): build the node's
metadata entry, pointing `contentfile` at the per-title markdown path and
blanking the `response` field; when `save` is set, also (over)write that file
with the node's response text. -/
def Question.save_node_content (q : Question) (p : Project) (n : Node)
    (save : Bool) (w : World) : World × NodeInfo :=
  let nodefname := q.path_for_project_file p n.data.title "md"
  let nodeinfo := { Node.to_json w n with contentfile := nodefname, response := "" }
  let w := if save then writeFile w nodefname (FileData.text (w.vars n.data.id).response_content) else w
  (w, nodeinfo)

/-- The `while curr:` loop of `save_answer_indexmd` (`core.py` lines 206-211):
walk from the given node to the root, prepending `"# " + title + "\n" +
response_content + "\n\n"` for every node whose title is non-empty. -/
def indexmd_loop (w : World) : Node → String → String
  | .root d, out =>
      if d.title ≠ "" then "# " ++ d.title ++ "\n" ++ (w.vars d.id).response_content ++ "\n\n" ++ out
      else out
  | .child d par, out =>
      let out2 :=
        if d.title ≠ "" then "# " ++ d.title ++ "\n" ++ (w.vars d.id).response_content ++ "\n\n" ++ out
        else out
      indexmd_loop w par out2

/-- `Question.save_answer_indexmd` (`core.py` lines 202-213): rewrite
`index.md` with the question header followed by the accumulated
title/response sections of the whole chain, oldest first. -/
def Question.save_answer_indexmd (q : Question) (p : Project) (w : World) : World :=
  let fname := q.path_for_project_file p "index" "md"
  match q.leafFor p.name with
  | none => w
  | some node =>
      let out := indexmd_loop w node ""
      writeFile w fname (FileData.text ("# " ++ q.content ++ "\n\n" ++ out))

/-- The `oncomplete` callback defined inside `_answer_for_project`
(`core.py` lines 176-180): save the completed node's content file and rewrite
`index.md` (the guard `if True or node is leaf:` is always taken). -/
def Question.oncomplete (q : Question) (p : Project) : Callback := fun node w =>
  let w := (q.save_node_content p node true w).1
  q.save_answer_indexmd p w

/-- The `while curr:` loop of `save_answer_meta` (`core.py` lines 231-235):
collect each node's metadata entry starting from the leaf and walking to the
root (so the resulting list is newest first). -/
def Question.metaNodes (q : Question) (p : Project) (w : World) : Node → List NodeInfo
  | n@(.root _) => [(q.save_node_content p n false w).2]
  | n@(.child _ par) => (q.save_node_content p n false w).2 :: q.metaNodes p w par

/-- `Question.save_answer_meta` (`core.py` lines 225-240): write `info.json`
holding the question info, the project name and the per-node entries
(collected leaf-to-root; `save_node_content` is called without `save`, so no
content files are written here). -/
def Question.save_answer_meta (q : Question) (p : Project) (w : World) : World :=
  match q.leafFor p.name with
  | none => w
  | some leaf =>
      let info : MetaInfo := ⟨q.to_json, p.name, q.metaNodes p w leaf⟩
      let fname := q.path_for_project_file p "info" "json"
      writeFile w fname (FileData.json info)

/-- The `while curr:` write loop of `_answer_finished` (`core.py` lines
194-199): write each node's response text to its per-title markdown file,
leaf first. -/
def Question.writeNodeFiles (q : Question) (p : Project) : Node → World → World
  | .root d, w =>
      writeFile w (q.path_for_project_file p d.title "md") (FileData.text (w.vars d.id).response_content)
  | .child d par, w =>
      q.writeNodeFiles p par
        (writeFile w (q.path_for_project_file p d.title "md") (FileData.text (w.vars d.id).response_content))

/-- `Question._answer_finished` (`core.py` lines 185-200): remove the answer
id from the shared registry (if present), rewrite every node's content file
and write `info.json`. -/
def Question._answer_finished (q : Question) (p : Project) (w : World) : World :=
  let answerid := q.base_id ++ "/" ++ p.name
  match q.leafFor p.name with
  | none => w
  | some leaf =>
      let w := { w with threads := w.threads.erase answerid }
      let w := q.writeNodeFiles p leaf w
      q.save_answer_meta p w

/-- `Question._answer_for_project` (`core.py` lines 172-183): the body of the
background thread. Runs `callnode` on the project's leaf with the
`oncomplete` callback, then `_answer_finished`. If `callnode` raises, the
exception escapes the thread: `_answer_finished` does not run and no cleanup
happens. -/
def Question._answer_for_project (svc : Nat → Option Resp) (q : Question)
    (p : Project) (w : World) : World :=
  match q.leafFor p.name with
  | none => w
  | some leaf =>
      match callnode svc (some (q.oncomplete p)) leaf (-1) w with
      | .error w2 => w2
      | .ok (w2, _) => q._answer_finished p w2

/-- `Question.answer_for_project` (`core.py` lines 156-170): compute the
answer id; under the lock, if the id is already registered return `None`
without touching anything; otherwise register the id, record the
`Thread.start()` call in the spawn log, and return the id. The thread body
itself is `_answer_for_project`, run separately. -/
def Question.answer_for_project (q : Question) (p : Project) (w : World) :
    World × Option String :=
  let answerid := q.base_id ++ "/" ++ p.name
  match q.leafFor p.name with
  | none => (w, none)
  | some _ =>
      if answerid ∈ w.threads then (w, none)
      else ({ w with threads := answerid :: w.threads
                   , spawned := w.spawned ++ [answerid] }, some answerid)

/-- One complete sequential run for a project: the check-and-register step
followed (when a thread was actually started) by that thread's body run to
completion. -/
def Question.runProject (svc : Nat → Option Resp) (q : Question) (p : Project)
    (w : World) : World :=
  let res := q.answer_for_project p w
  match res.2 with
  | some _ => q._answer_for_project svc p res.1
  | none => res.1

def combined_round : String :=
  "\nMy next interview is with Meta on the Project Retrospective and Behavioral Round.   It will be in 8 areas:\n\n• Project direction:\n    -   How do you set and drive success metrics?\n    -   How do you influence stakeholders to implement the most impactful solution?\n    -   Discuss how you align your projects to the objectives of the organization at large.\n    -   How do you establish milestones and drive strategic planning for your orgnaization goals (talk about\n        participating in strategic planning)?\n    -   Talk about bringing about stakeholder alignment on projects you have initiated or driven.\n    -   When you initiate projects how do you investigate the particular problem to gauge alignment with org goals?\n        Talk about customer data, operational reports, and strategic business drivers.\n    -   How would you quantify success metrics and explain specifically how you would chose the metrics/baselines you nominated?\n    -   How you would gain buy-in from critical stakeholders? How you would align conflicting priorities among stakeholders to drive consensus.\n    -   What techniques/frameworks/process do you have for communicating the strategic importance of projects to senior leadership or executives?\n\n• Project execution: How do you identify and address gaps in execution?  What tools and/or systems have you utilized or built to ensure quality work across complex problems?  How do you track execution health and statuses?  What proceses have you put in place to scale processes?  How do you empower your teams, EMs and TLs to execute and collaborate with partners?\n\n• Stakeholder influence and engagement: When have you had to influence and negotiate with stakeholders and peers? How do you build strong partnerships across the organization? How do you nurture relationships, foster engagement and empower your stakeholders?  How do you handle disagreements and address and assess key issues with your partners?\n\n• Partners: How do you partner with cross-functional partners and stakeholders? What are some successful collaborations that you’ve had? How do you communicate your vision to your partners (talk about your framework and manifesto).  What is your plannning process through out the year?  How do you align variou sorgs like business, compliance etc?  How do you build aliances?  How do you empower your teams and managers to work with your parters?  How do you get everybody on the same page?  Tell me how you’d design a client-server API to build a rich document editor\n\n• Resolves Conflict: What kind of disagreements have you had with colleagues and/or team members? How have you resolved them? Can you empathize with people whose points of view differ radically from yours?  When resolving conflicts what kind of frameworks and processes do you setup for your teams (and for yourself) for the future?   How do you fix existing processes?\n\n• Grows Continuously: Discuss a project that you led and were really passionate about that failed. Why did it fail and what did you learn? How did take constructive criticism as an opportunity to improve?  What best practices did you put in place as a result of this or did you improve as a result?  Talk about Receiving feedback, retrospectives, scaling self awareness for you and your teams, SWOT.\n\n• Embraces Ambiguity: How do you operate in an ambiguous and quickly changing environment? Can you make quality decisions and sustain productivity when missing information? How did you react when you had to pivot your team away from a project due to a shift in priority?\n\n• Communicates Effectively: How well do you communicate with teams and cross-functional partners?  How do you coach your team to effectively communicate with their stakeholders?   How do you study the audience?  Identify gaps in communication styles, address the gaps, help teams resonate with your message and persuade all audience types?   How do you measure this?   How do you deliver complex pieces of information to teams, partners, leadership etc?\n"

def GPSF : String :=
  "\n* Quick summary containing 3 key philosophies you will be addressing that are strongly in line with Meta and Google\x27s L7 senior manager rubriks.\n* Address key frameworks you will be talking about it.  Make sure to use these frameworks explicitly in your writeup.\n* Situation (3 Bullet points)?  What was the context and why it wasnt identified until now?   How long has it been  happening and had anything changed (eg new technology, new environment, new processes, new leadership etc). How you spent time understanding the problem and finally what convinced you that it was a problem?  As part of this investigation whose view points did you consider (eg 1/1s, team, leadereship, peers, PMs etc)?\n* How you communicated the learnings (3 bullet points): If applicable how did you share the learnings and patterns and how did you adapt communication to suit the audience?\n* Identifying Options (5 bullet points): Given the understanding how did you identify (through all parties - including\nyour teams and partners) and arrive at options to fix the team problem?  Who did you leverage in doing so (demonstrate your team and cross functional leadership here).\n* Obstacles and Ensuring Alignment from various parties on the solutions (5 bullet points): What obstacles did you face here on the option and what were the oppositions (eg tradeoffs, politics, etc)?  How did you overcome these?  What frameworks/processes did you apply\n  and establish?\n* Executing on the solution:\n  - How did you plan out and breakdown the solution? (3 bullet points)\n  - How did you fix issues with the frameworks in place?  What new frameworks did you have to bring in if any?  What\n    would the change involve?\n  - Tracking the Change (5-10 bullet points): How did you track, communicate, monitor, manage the change - talk about within teams, with managers/TLs, cross functional, leadership and so on if applicable.\n  - Examples of hurdles and challenges during the change management and how you solved them as a senior engineering leader.\n* Results and Impact (3 bullet points each): Detail the impact qualitatively and quantitatively?\n* Learnings (5 bulletpoints): What did you learn, and what would you do differently. What processes did you fix during all this and what scalable improvements/processes did you put in place as a result.\n* Through out each of the above points ensure that you have tie back to the philosophies and frameworks you presented in  the Quick Summary at the start.\n"

def chained_q1 : String :=
  "Now give a 1 minute version that captures the situation, context, your specific actions/frameworks and results."

def chained_q2 : String :=
  "\n        Great now come up with a 2 minute version that provides a timeline view of all the triggers and the actions you took to assess and address the situations along with who was involved in this action (teams, TLs, EMs, partners and leaders etc).\n    "

def chained_q3 : String :=
  "\n        Great now give me a detailed five minute version that dives deep into actions you took across various aspects of the problem solving including partners, team members, leadership and customers (showed in the 2 minute version).  This should also include frameworks you had in place, what new frameworks/processes you put in place and evolved existing ones to empower teams and partners in scaling their impact.  Make sure to assess this for any qualitative aspects and then fill in the details so that there is sufficient depth to address any qualitative statements.\n    "

def chained_q4 : String :=
  "Great now can you also give me a summary flowchart diagram linking all the actions you took?"

def review_q1 : String :=
  "Great now I want you to play the role of the reviewer and review this answer at a senior engineering manager level.  I want you to review the answer critically and address areas where there is insufficient and fix and rewrite the candidate\x27s answer by addressing all the areas of improvement."

def ifq_proj_a : String :=
  "\nMake sure in your answers you use \x27I\x27 instead of \x27We\x27 whereever possible.  Key is to show your actions and impact.  When answering the question pick examples from the "

def ifq_proj_b : String :=
  " project.  Its timeline is:\n\n"

def ifq_proj_c : String :=
  "\n"

def ifq_tail : String :=
  "Answer this question: `\x7bquestion.content\x7d`"

/-- Baseline builder texts above are the string literals from `bot.py` /
`answerformats.py`: `combined_round` is the body of `combined_round()`,
`GPSF` the format template, `chained_q1..q4` and `review_q1` the follow-up
node questions, and the `ifq_*` pieces the fixed fragments of the f-strings
in `instructions_for_question`. In `instructions_for_question` the final
`prompt +=` line is NOT an f-string in the source, so the text
"\x7bquestion.content\x7d" is appended literally, braces included. -/
def DEFAULT_MODEL : String := "gpt-4.5-preview"

/-- `instructions_for_question(question, project)` (`bot.py` lines 45-56):
the instruction root node, `is_instruction=True`, empty title. -/
def instructions_for_question (question : Question) (project : Option Project) : Node :=
  let prompt := "\n" ++ combined_round ++ "\n"
  let prompt :=
    match project with
    | some p => prompt ++ ifq_proj_a ++ p.name ++ ifq_proj_b ++ p.timeline ++ ifq_proj_c
    | none => prompt
  let prompt := prompt ++ ifq_tail
  let _ := question  -- `question` is only referenced inside the non-f-string literal
  Node.root ⟨"root", "", DEFAULT_MODEL, prompt, true⟩

def ifq2_b1 : String := "\n\nAnswer this question: `"
def ifq2_b2 : String := "`\n\nUse the following format when answering:"
def ifq2_sep1 : String := "\n---\n"
def ifq2_sep2 : String := "\n---"
def ifq2_ensure : String := "\n\nEnsure that you are addressing relevant Meta values and principles and answering at an L7 engineering manager level and make sure to address Meta\x27s values and principles."
def ifq2_proj1 : String := "\n\nMake sure in your answers you use \x27I\x27 instead of \x27We\x27 whereever possible.  Key is to show your actions and impact.  When answering the question pick examples from the "
def ifq2_proj2 : String := " project.  Its timeline and details are:"

/-- `instructions_for_question2(question, project, structure=GPSF)`
(`bot.py` lines 58-66): a root node titled "OneShotAnswer" whose
`is_instruction` flag is left at its default `False`. -/
def instructions_for_question2 (question : Question) (project : Option Project)
    (struct : String := GPSF) : Node :=
  let prompt := combined_round
  let prompt := prompt ++ ifq2_b1 ++ question.content ++ ifq2_b2
  let prompt := prompt ++ ifq2_sep1 ++ struct ++ ifq2_sep2
  let prompt := prompt ++ ifq2_ensure
  let prompt :=
    match project with
    | some p => prompt ++ ifq2_proj1 ++ p.name ++ ifq2_proj2 ++ ifq2_sep1 ++ p.timeline ++ ifq2_sep2
    | none => prompt
  Node.root ⟨"root", "OneShotAnswer", DEFAULT_MODEL, prompt, false⟩

/-- `nodes_for_chained_answer(question, project)` (`bot.py` lines 68-81):
instruction root, then oneminute → twominute → detailed → flowchart, each
child linked to the previous node; returns the leaf (`node4`). -/
def nodes_for_chained_answer (question : Question) (project : Option Project) : Node :=
  let root := instructions_for_question question project
  let node0 := root
  let node1 := Node.child ⟨"oneminute", "One minute answer", DEFAULT_MODEL, chained_q1, false⟩ node0
  let node2 := Node.child ⟨"twominute", "Two Minute Answer", DEFAULT_MODEL, chained_q2, false⟩ node1
  let node3 := Node.child ⟨"detailed", "Detailed Response", "gpt-4.5-preview", chained_q3, false⟩ node2
  Node.child ⟨"flowchart", "Summary Flowchart", "gpt-4.5-preview", chained_q4, false⟩ node3

/-- `nodes_for_answer_with_review(question, project)` (`bot.py` lines 83-86):
a two-node chain — the "OneShotAnswer" root from
`instructions_for_question2` and one "Reviewed Answer" child; returns the
leaf (`node1`). -/
def nodes_for_answer_with_review (question : Question) (project : Option Project) : Node :=
  let root := instructions_for_question2 question project
  Node.child ⟨"reviewed", "Reviewed Answer", DEFAULT_MODEL, review_q1, false⟩ root


/-! Concrete fixtures used for closed-form evaluations. -/

/-- A small concrete question. -/
def qC : Question := { rootfolder := "r", area := "a", subtopic := "s", content := "Q", id := "0" }

/-- A small concrete project. -/
def pC : Project := { company := "C", name := "P", timeline := "T" }

/-- A concrete deterministic service: the n-th `create` call returns id
`idn` and text `outn`. -/
def fC : Nat → Resp := fun n => ⟨"id" ++ Nat.repr n, "out" ++ Nat.repr n⟩

def svcC : Nat → Option Resp := fun n => some (fC n)

/-- A service that answers the first `create` call and raises on every later
one. -/
def svcFail1 : Nat → Option Resp := fun n => if n = 0 then some (fC 0) else none

/-- The five-node chain `nodes_for_chained_answer` builds for `qC`/`pC`. -/
def leafC : Node := nodes_for_chained_answer qC (some pC)

/-- `qC` with `pC` registered via `add_project` (leaf from the chained builder). -/
def qA : Question := qC.add_project pC leafC

/-- A full successful sequential run for `(qA, pC)`. -/
def wRun : World := Question.runProject svcC qA pC initWorld

/-- A run whose service fails from the second `create` call on: exactly one
node completes, then the background task dies. -/
def wFail : World := Question.runProject svcFail1 qA pC initWorld

/-- The two-node review chain for `qC`/`pC` and two successive `callnode`
invocations on its leaf: a first full run, then a re-call with the later
timestamp `100`. -/
def leafR : Node := nodes_for_answer_with_review qC (some pC)

def wR1 : World := exceptWorld (callnode svcC none leafR (-1) initWorld)

def wR2 : World := exceptWorld (callnode svcC none leafR 100 wR1)

/-- The `nodes` list of the `info.json` document at `path`, if one is there. -/
def infoNodesAt (w : World) (path : String) : List NodeInfo :=
  match w.files path with
  | some (FileData.json info) => info.nodes
  | _ => []

/-- A second distinct concrete question (for class-attribute sharing). -/
def qB : Question := { rootfolder := "r", area := "b", subtopic := "t", content := "R", id := "1" }

/-- Two questions whose areas have the same non-whitespace tokens `[a, b]`
but differ by a tab: `qT1` has a tab between the tokens, `qT2` a space. -/
def qT1 : Question := { rootfolder := "r", area := "a\tb", subtopic := "s", content := "", id := "0" }

def qT2 : Question := { rootfolder := "r", area := "a b", subtopic := "s", content := "", id := "0" }

/-- Two questions differing only in the number of spaces in `area`. -/
def qS1 : Question := { rootfolder := "r", area := "a b", subtopic := "s", content := "", id := "0" }

def qS2 : Question := { rootfolder := "r", area := "a  b", subtopic := "s", content := "", id := "0" }

/-- Two projects whose names differ only in the number of spaces. -/
def pS1 : Project := { company := "C", name := "x y", timeline := "T" }

def pS2 : Project := { company := "C", name := "x  y", timeline := "T" }

/-! Helper frame lemmas: `callnode` with the `oncomplete` callback touches
only `vars`, `files`, `log` and `clock`, never the task registry. -/

theorem oncomplete_frame (q : Question) (p : Project) (nd : Node) (w : World) :
    (q.oncomplete p nd w).threads = w.threads ∧ (q.oncomplete p nd w).spawned = w.spawned := by
  unfold Question.oncomplete Question.save_node_content Question.save_answer_indexmd writeFile
  split <;> split <;> simp

theorem callnode_issue_frame (svc : Nat → Option Resp) (q : Question) (p : Project)
    (n : Node) (w : World) :
    (exceptWorld (callnode_issue svc (some (q.oncomplete p)) n w)).threads = w.threads ∧
    (exceptWorld (callnode_issue svc (some (q.oncomplete p)) n w)).spawned = w.spawned := by
  cases n with
  | root d =>
      unfold callnode_issue
      simp only [now]
      (repeat' split) <;> simp_all [exceptWorld, setVars, oncomplete_frame]
  | child d par =>
      unfold callnode_issue
      simp only [now]
      by_cases hins : par.data.is_instruction = true
      · simp only [hins, if_true]
        (repeat' split) <;> simp_all [exceptWorld, setVars, oncomplete_frame]
      · simp only [if_neg hins]
        rcases hr : (w.vars par.data.id).response_id with _ | rid <;>
          simp only [hr] <;>
          (repeat' split) <;> simp_all [exceptWorld, setVars, oncomplete_frame]

theorem callnode_frame (svc : Nat → Option Resp) (q : Question) (p : Project) :
    ∀ (n : Node) (t : Int) (w : World),
      (exceptWorld (callnode svc (some (q.oncomplete p)) n t w)).threads = w.threads ∧
      (exceptWorld (callnode svc (some (q.oncomplete p)) n t w)).spawned = w.spawned := by
  intro n
  induction n with
  | root d =>
      intro t w
      rw [callnode]
      by_cases ht : t < 0
      · simpa only [if_pos ht, now] using callnode_issue_frame svc q p _ _
      · simpa only [if_neg ht, now] using callnode_issue_frame svc q p _ _
  | child d par ih =>
      intro t w
      rw [callnode]
      by_cases ht : t < 0
      · simp only [if_pos ht, now]
        split
        · rcases hc : callnode svc (some (q.oncomplete p)) par w.clock
              { w with clock := w.clock + 1 } with we | pr
          · have hw := ih w.clock { w with clock := w.clock + 1 }
            rw [hc] at hw
            simpa [exceptWorld] using hw
          · obtain ⟨wo, r⟩ := pr
            have hw := ih w.clock { w with clock := w.clock + 1 }
            rw [hc] at hw
            simp only [exceptWorld] at hw
            have hi := callnode_issue_frame svc q p (Node.child d par) wo
            simp only [hc]
            exact ⟨hi.1.trans hw.1, hi.2.trans hw.2⟩
        · simpa using callnode_issue_frame svc q p (Node.child d par) _
      · simp only [if_neg ht, now]
        split
        · rcases hc : callnode svc (some (q.oncomplete p)) par t w with we | pr
          · have hw := ih t w
            rw [hc] at hw
            simpa [exceptWorld] using hw
          · obtain ⟨wo, r⟩ := pr
            have hw := ih t w
            rw [hc] at hw
            simp only [exceptWorld] at hw
            have hi := callnode_issue_frame svc q p (Node.child d par) wo
            simp only [hc]
            exact ⟨hi.1.trans hw.1, hi.2.trans hw.2⟩
        · simpa using callnode_issue_frame svc q p (Node.child d par) _


/-! Claim C1. -/

/-- C1, counterexample: for the concrete 5-node chain built by
`nodes_for_chained_answer`, dispatching the leaf issues only 4 requests — the
instruction root is never dispatched (the staleness walk stops at an
instruction parent and its text travels in the first request's instruction
channel) — so "exactly N requests for a chain of N nodes" is false. -/
theorem C1_counterexample :
    (exceptWorld (callnode svcC none leafC (-1) initWorld)).log.length = 4 ∧
    leafC.chainLength = 5 ∧
    ¬ (exceptWorld (callnode svcC none leafC (-1) initWorld)).log.length = leafC.chainLength := by
  refine ⟨rfl, rfl, by decide⟩

/-- C1 (amended): dispatching the leaf of a builder chain issues one request
per node except for an instruction root, which is never dispatched: the
5-node `nodes_for_chained_answer` chain yields exactly 4 requests (N-1; the
instruction root's text is carried in the first request's instruction
channel), while the 2-node `nodes_for_answer_with_review` chain (whose root
is not an instruction node) yields exactly 2 (N). Requests are issued in
strict root-to-leaf order, each request after a conversational parent
carrying that parent's just-assigned response id, and each dispatched
parent's `last_answered` strictly precedes its child's. -/
theorem C1_amended (q : Question) (p : Project) (f : Nat → Resp) :
    let wChain := exceptWorld (callnode (fun n => some (f n)) none
      (nodes_for_chained_answer q (some p)) (-1) initWorld)
    let wRev := exceptWorld (callnode (fun n => some (f n)) none
      (nodes_for_answer_with_review q (some p)) (-1) initWorld)
    ((nodes_for_chained_answer q (some p)).chainLength = 5 ∧
      wChain.log.map (fun r => (r.input, r.instructions, r.previous_response_id)) =
        [(chained_q1, some (instructions_for_question q (some p)).data.question, none),
         (chained_q2, none, some (f 0).id),
         (chained_q3, none, some (f 1).id),
         (chained_q4, none, some (f 2).id)]) ∧
    ((nodes_for_answer_with_review q (some p)).chainLength = 2 ∧
      wRev.log.map (fun r => (r.input, r.instructions, r.previous_response_id)) =
        [((instructions_for_question2 q (some p)).data.question, none, none),
         (review_q1, none, some (f 0).id)]) ∧
    ((wChain.vars "oneminute").last_answered < (wChain.vars "twominute").last_answered ∧
     (wChain.vars "twominute").last_answered < (wChain.vars "detailed").last_answered ∧
     (wChain.vars "detailed").last_answered < (wChain.vars "flowchart").last_answered) := by
  intro wChain wRev
  refine ⟨⟨rfl, rfl⟩, ⟨rfl, rfl⟩, ?_, ?_, ?_⟩
  · show (3 : Int) < 6
    decide
  · show (6 : Int) < 9
    decide
  · show (9 : Int) < 12
    decide

/-! Claim C2. -/

/-- C2: request composition. In both builder chains, every request's user
turn (`input`) is the dispatched node's own question text; the single node
whose immediate parent is an instruction carrier (the "oneminute" node of the
chained builder) sends that parent's question in the `instructions` channel,
and every node with a conversational parent instead carries
`previous_response_id` equal to the parent's freshly assigned response id.
The instruction root itself is never dispatched when a descendant is called,
so its text occurs only in the instruction channel of its child's request,
never as any request's user turn. -/
theorem C2_theorem (q : Question) (p : Project) (f : Nat → Resp) :
    let wChain := exceptWorld (callnode (fun n => some (f n)) none
      (nodes_for_chained_answer q (some p)) (-1) initWorld)
    let wRev := exceptWorld (callnode (fun n => some (f n)) none
      (nodes_for_answer_with_review q (some p)) (-1) initWorld)
    (instructions_for_question q (some p)).data.is_instruction = true ∧
    (instructions_for_question2 q (some p)).data.is_instruction = false ∧
    wChain.log =
      [⟨DEFAULT_MODEL, chained_q1, some (instructions_for_question q (some p)).data.question, none⟩,
       ⟨DEFAULT_MODEL, chained_q2, none, some (f 0).id⟩,
       ⟨"gpt-4.5-preview", chained_q3, none, some (f 1).id⟩,
       ⟨"gpt-4.5-preview", chained_q4, none, some (f 2).id⟩] ∧
    wRev.log =
      [⟨DEFAULT_MODEL, (instructions_for_question2 q (some p)).data.question, none, none⟩,
       ⟨DEFAULT_MODEL, review_q1, none, some (f 0).id⟩] :=
  ⟨rfl, rfl, rfl, rfl⟩


/-! Claim C3. -/

/-- C3, counterexample: after a successful chain run, the `info.json` node
list is ordered newest-to-oldest — the leaf ("flowchart") first and the root
last — not root-first/leaf-last as claimed (`save_answer_meta` walks the
parent links starting from the leaf, appending as it goes). -/
theorem C3_counterexample :
    (infoNodesAt wRun "r/a_____s_____0/P/info.json").map (fun ni => ni.id) =
      ["flowchart", "detailed", "twominute", "oneminute", "root"] ∧
    ¬ (infoNodesAt wRun "r/a_____s_____0/P/info.json").map (fun ni => ni.id) =
      ["root", "oneminute", "twominute", "detailed", "flowchart"] := by
  refine ⟨rfl, by decide⟩

/-- C3 (amended): after a successful chain run, `info.json` contains one
entry per chain node ordered newest-to-oldest (leaf first, root last), each
entry holding the node's model, title, prompt text, parent id, instruction
flag, last-answered time, elapsed time and a contentfile path; the response
content itself is blanked in the JSON, and each entry's contentfile path
names an existing file whose contents equal that node's response (the
instruction root, never dispatched, has an empty response and an existing
empty ".md" file since its title is empty). -/
theorem C3_amended (f : Nat → Resp) :
    let w := Question.runProject (fun n => some (f n)) qA pC initWorld
    let entries := infoNodesAt w "r/a_____s_____0/P/info.json"
    entries.map (fun ni => ni.id) = ["flowchart", "detailed", "twominute", "oneminute", "root"] ∧
    entries.length = leafC.chainLength ∧
    entries.map (fun ni => (ni.model, ni.title, ni.parentid, ni.is_instruction)) =
      [("gpt-4.5-preview", "Summary Flowchart", some "detailed", false),
       ("gpt-4.5-preview", "Detailed Response", some "twominute", false),
       (DEFAULT_MODEL, "Two Minute Answer", some "oneminute", false),
       (DEFAULT_MODEL, "One minute answer", some "root", false),
       (DEFAULT_MODEL, "", none, true)] ∧
    entries.map (fun ni => ni.question) =
      [chained_q4, chained_q3, chained_q2, chained_q1,
       (instructions_for_question qC (some pC)).data.question] ∧
    entries.map (fun ni => (ni.last_answered, ni.time_taken)) =
      [(12, 1), (9, 1), (6, 1), (3, 1), (-1, 0)] ∧
    entries.map (fun ni => ni.response) = ["", "", "", "", ""] ∧
    entries.map (fun ni => ni.contentfile) =
      ["r/a_____s_____0/P/Summary Flowchart.md",
       "r/a_____s_____0/P/Detailed Response.md",
       "r/a_____s_____0/P/Two Minute Answer.md",
       "r/a_____s_____0/P/One minute answer.md",
       "r/a_____s_____0/P/.md"] ∧
    entries.map (fun ni => w.files ni.contentfile) =
      entries.map (fun ni => some (FileData.text ((w.vars ni.id).response_content))) ∧
    entries.map (fun ni => (w.vars ni.id).response_content) =
      [(f 3).output_text, (f 2).output_text, (f 1).output_text, (f 0).output_text, ""] := by
  exact ⟨rfl, rfl, rfl, rfl, rfl, rfl, rfl, rfl, rfl⟩

/-! Claim C4. -/

/-- C4, counterexample: re-calling `callnode` on the already-answered review
leaf with the later timestamp 100 is not a no-op: two further requests are
issued (the stale parent and the leaf are both re-dispatched) and the leaf's
response fields are overwritten. -/
theorem C4_counterexample :
    wR1.log.length = 2 ∧ wR2.log.length = 4 ∧
    wR2.vars "reviewed" ≠ wR1.vars "reviewed" := by
  refine ⟨rfl, rfl, by decide⟩

/-- C4 (amended): a node's response fields are empty (`""`, no response id,
`last_answered = -1`) until the dispatcher first calls it; but re-calling
`callnode` on an already-answered node with a later timestamp parameter is
NOT a no-op: the node's request is re-issued and its response fields
overwritten, and every ancestor whose `last_answered` is older than the
timestamp is re-dispatched as well. Only ancestors already answered at or
after the dispatch timestamp are skipped with their fields unchanged. -/
theorem C4_amended (q : Question) (p : Project) (f : Nat → Resp) :
    let leaf := nodes_for_answer_with_review q (some p)
    let w1 := exceptWorld (callnode (fun n => some (f n)) none leaf (-1) initWorld)
    let w2 := exceptWorld (callnode (fun n => some (f n)) none leaf 100 w1)
    let w3 := exceptWorld (callnode (fun n => some (f n)) none leaf 2 w1)
    (∀ s, initWorld.vars s = ⟨"", none, -1, 0⟩) ∧
    ((w1.vars "reviewed").response_content = (f 1).output_text ∧
     (w1.vars "root").response_content = (f 0).output_text) ∧
    (w2.log.length = w1.log.length + 2 ∧
     (w2.vars "reviewed").response_content = (f 3).output_text ∧
     (w2.vars "root").response_content = (f 2).output_text ∧
     (w2.vars "reviewed").last_answered ≠ (w1.vars "reviewed").last_answered) ∧
    (w3.log.length = w1.log.length + 1 ∧
     w3.vars "root" = w1.vars "root" ∧
     (w3.vars "reviewed").response_content = (f 2).output_text) := by
  intro leaf w1 w2 w3
  refine ⟨fun s => rfl, ⟨rfl, rfl⟩, ⟨rfl, rfl, rfl, ?_⟩, ⟨rfl, rfl, rfl⟩⟩
  · show (12 : Int) ≠ 6
    decide


/-! Claim C5. -/

/-- C5: at-most-one concurrent run per answer id. If the composite answer id
is not yet registered, the first `answer_for_project` call registers it and
starts exactly one background task; a second call made before the first run
finishes (so the id is still registered) returns `None` immediately, leaving
the registry and the spawn log — indeed the whole world — unchanged. Hence
two rapid calls yield exactly one background task, and only that one task
writes output files. -/
theorem C5_theorem (q : Question) (p : Project) (w : World)
    (hleaf : (q.leafFor p.name).isSome = true)
    (hfresh : (q.base_id ++ "/" ++ p.name) ∉ w.threads) :
    (q.answer_for_project p w).2 = some (q.base_id ++ "/" ++ p.name) ∧
    (q.answer_for_project p w).1.spawned = w.spawned ++ [q.base_id ++ "/" ++ p.name] ∧
    (q.answer_for_project p w).1.threads = (q.base_id ++ "/" ++ p.name) :: w.threads ∧
    q.answer_for_project p (q.answer_for_project p w).1 = ((q.answer_for_project p w).1, none) := by
  obtain ⟨lf, hl⟩ := Option.isSome_iff_exists.mp hleaf
  unfold Question.answer_for_project
  simp only [hl]
  rw [if_neg hfresh]
  refine ⟨rfl, rfl, rfl, ?_⟩
  simp

/-- C5 witness: both hypotheses of `C5_theorem` hold for the concrete
`(qA, pC)` in the initial world, and the conclusion follows. -/
theorem C5_witness :
    ((qA.leafFor pC.name).isSome = true ∧ (qA.base_id ++ "/" ++ pC.name) ∉ initWorld.threads) ∧
    ((qA.answer_for_project pC initWorld).2 = some (qA.base_id ++ "/" ++ pC.name) ∧
     (qA.answer_for_project pC initWorld).1.spawned =
       initWorld.spawned ++ [qA.base_id ++ "/" ++ pC.name] ∧
     (qA.answer_for_project pC initWorld).1.threads =
       (qA.base_id ++ "/" ++ pC.name) :: initWorld.threads ∧
     qA.answer_for_project pC (qA.answer_for_project pC initWorld).1 =
       ((qA.answer_for_project pC initWorld).1, none)) :=
  ⟨⟨by decide, by decide⟩, C5_theorem qA pC initWorld (by decide) (by decide)⟩


/-! Claim C6. -/

theorem writeNodeFiles_frame (q : Question) (p : Project) :
    ∀ (n : Node) (w : World),
      (q.writeNodeFiles p n w).threads = w.threads ∧
      (q.writeNodeFiles p n w).spawned = w.spawned := by
  intro n
  induction n with
  | root d => intro w; simp [Question.writeNodeFiles, writeFile]
  | child d par ih => intro w; simp [Question.writeNodeFiles, writeFile, ih]

theorem save_answer_meta_frame (q : Question) (p : Project) (w : World) :
    (q.save_answer_meta p w).threads = w.threads ∧
    (q.save_answer_meta p w).spawned = w.spawned := by
  unfold Question.save_answer_meta
  split <;> simp [writeFile]

/-- C6, counterexample: the `threads` mapping is not per-`Question` state.
`qA` and `qB` are distinct `Question` instances, yet registering an answer id
via `answer_for_project` on `qA` changes the in-flight mapping that the
untouched instance `qB` observes (in Python, `threads = {}` in the class body
has no annotation and is a single class attribute shared by all instances). -/
theorem C6_counterexample :
    qA ≠ qB ∧
    Question.getThreads qB (qA.answer_for_project pC initWorld).1 ≠
      Question.getThreads qB initWorld := by
  exact ⟨by decide, by decide⟩

/-- C6 (amended): the in-flight mapping is class-level state shared by every
`Question` instance: any two instances observe the identical mapping at all
times; registering a fresh id via `answer_for_project` on one question
prepends it to the mapping seen by every other instance, and the deletion
performed by `_answer_finished` when the run completes removes it again from
the mapping seen by all instances. -/
theorem C6_amended (q q2 : Question) (p : Project) (w : World)
    (hleaf : (q.leafFor p.name).isSome = true)
    (hfresh : (q.base_id ++ "/" ++ p.name) ∉ w.threads) :
    (∀ (qa qb : Question) (w0 : World), qa.getThreads w0 = qb.getThreads w0) ∧
    Question.getThreads q2 (q.answer_for_project p w).1 =
      (q.base_id ++ "/" ++ p.name) :: Question.getThreads q2 w ∧
    Question.getThreads q2 (q._answer_finished p (q.answer_for_project p w).1) =
      Question.getThreads q2 w := by
  obtain ⟨lf, hl⟩ := Option.isSome_iff_exists.mp hleaf
  have hreg : (q.answer_for_project p w).1.threads = (q.base_id ++ "/" ++ p.name) :: w.threads := by
    unfold Question.answer_for_project
    simp only [hl]
    rw [if_neg hfresh]
  refine ⟨fun qa qb w0 => rfl, hreg, ?_⟩
  unfold Question._answer_finished
  simp only [hl]
  show (q.save_answer_meta p (q.writeNodeFiles p lf _)).threads = w.threads
  rw [(save_answer_meta_frame q p _).1, (writeNodeFiles_frame q p lf _).1]
  show ((q.answer_for_project p w).1.threads).erase (q.base_id ++ "/" ++ p.name) = w.threads
  rw [hreg, List.erase_cons_head]

/-- C6 witness: the hypotheses of `C6_amended` hold for the concrete
distinct instances `qA`, `qB` in the initial world. -/
theorem C6_witness :
    ((qA.leafFor pC.name).isSome = true ∧ (qA.base_id ++ "/" ++ pC.name) ∉ initWorld.threads) ∧
    ((∀ (qa qb : Question) (w0 : World), qa.getThreads w0 = qb.getThreads w0) ∧
     Question.getThreads qB (qA.answer_for_project pC initWorld).1 =
       (qA.base_id ++ "/" ++ pC.name) :: Question.getThreads qB initWorld ∧
     Question.getThreads qB (qA._answer_finished pC (qA.answer_for_project pC initWorld).1) =
       Question.getThreads qB initWorld) :=
  ⟨⟨by decide, by decide⟩, C6_amended qA qB pC initWorld (by decide) (by decide)⟩

/-! Claim C7. -/

/-- `answer_for_project` is a registry-preserving no-op whenever the answer
id is already in flight. -/
theorem answer_for_project_inflight (q : Question) (p : Project) (w2 : World)
    (hleaf : (q.leafFor p.name).isSome = true)
    (hmem : (q.base_id ++ "/" ++ p.name) ∈ w2.threads) :
    q.answer_for_project p w2 = (w2, none) := by
  obtain ⟨lf, hl⟩ := Option.isSome_iff_exists.mp hleaf
  unfold Question.answer_for_project
  simp only [hl]
  rw [if_pos hmem]

/-- C7: if the background task raises (the completion call fails), the
answer id is never removed from the in-flight registry — the exception
escapes `_answer_for_project` before `_answer_finished` can delete it, and
nothing else removes it — so every subsequent `answer_for_project` call for
the same (question, project) pair returns `None` immediately without
starting a new task (the spawn log does not grow). -/
theorem C7_theorem (svc : Nat → Option Resp) (q : Question) (p : Project)
    (w : World) (leaf : Node)
    (hl : q.leafFor p.name = some leaf)
    (hfresh : (q.base_id ++ "/" ++ p.name) ∉ w.threads)
    (hfail : Except.isErr (callnode svc (some (q.oncomplete p)) leaf (-1)
        (q.answer_for_project p w).1) = true) :
    (q.base_id ++ "/" ++ p.name) ∈ (q._answer_for_project svc p (q.answer_for_project p w).1).threads ∧
    (q._answer_for_project svc p (q.answer_for_project p w).1).threads =
      (q.answer_for_project p w).1.threads ∧
    (q._answer_for_project svc p (q.answer_for_project p w).1).spawned =
      (q.answer_for_project p w).1.spawned ∧
    q.answer_for_project p (q._answer_for_project svc p (q.answer_for_project p w).1) =
      (q._answer_for_project svc p (q.answer_for_project p w).1, none) := by
  have hreg : (q.answer_for_project p w).1.threads = (q.base_id ++ "/" ++ p.name) :: w.threads := by
    unfold Question.answer_for_project
    simp only [hl]
    rw [if_neg hfresh]
  have hframe := callnode_frame svc q p leaf (-1) (q.answer_for_project p w).1
  have hbody : q._answer_for_project svc p (q.answer_for_project p w).1 =
      exceptWorld (callnode svc (some (q.oncomplete p)) leaf (-1) (q.answer_for_project p w).1) := by
    unfold Question._answer_for_project
    simp only [hl]
    rcases hres : callnode svc (some (q.oncomplete p)) leaf (-1) (q.answer_for_project p w).1 with
      we | pr
    · simp [exceptWorld]
    · rw [hres] at hfail
      simp [Except.isErr] at hfail
  have hth : (q._answer_for_project svc p (q.answer_for_project p w).1).threads =
      (q.answer_for_project p w).1.threads := by rw [hbody]; exact hframe.1
  have hsp : (q._answer_for_project svc p (q.answer_for_project p w).1).spawned =
      (q.answer_for_project p w).1.spawned := by rw [hbody]; exact hframe.2
  have hmem : (q.base_id ++ "/" ++ p.name) ∈
      (q._answer_for_project svc p (q.answer_for_project p w).1).threads := by
    rw [hth, hreg]; exact List.mem_cons_self _ _
  exact ⟨hmem, hth, hsp,
    answer_for_project_inflight q p _ (by rw [hl]; rfl) hmem⟩

set_option maxRecDepth 16384 in
/-- C7 witness: with the always-failing service, the hypotheses of
`C7_theorem` hold for the concrete `(qA, pC)` in the initial world, and the
conclusion follows. -/
theorem C7_witness :
    (qA.leafFor pC.name = some leafC ∧
     (qA.base_id ++ "/" ++ pC.name) ∉ initWorld.threads ∧
     Except.isErr (callnode (fun _ => none) (some (qA.oncomplete pC)) leafC (-1)
       (qA.answer_for_project pC initWorld).1) = true) ∧
    ((qA.base_id ++ "/" ++ pC.name) ∈
       (qA._answer_for_project (fun _ => none) pC (qA.answer_for_project pC initWorld).1).threads ∧
     (qA._answer_for_project (fun _ => none) pC (qA.answer_for_project pC initWorld).1).threads =
       (qA.answer_for_project pC initWorld).1.threads ∧
     (qA._answer_for_project (fun _ => none) pC (qA.answer_for_project pC initWorld).1).spawned =
       (qA.answer_for_project pC initWorld).1.spawned ∧
     qA.answer_for_project pC
         (qA._answer_for_project (fun _ => none) pC (qA.answer_for_project pC initWorld).1) =
       (qA._answer_for_project (fun _ => none) pC (qA.answer_for_project pC initWorld).1, none)) :=
  ⟨⟨rfl, by decide, by decide⟩,
   C7_theorem (fun _ => none) qA pC initWorld leafC rfl (by decide) (by decide)⟩


/-! Claim C8. -/

/-- C8, counterexample: the chain built by `nodes_for_answer_with_review`
has a root whose `is_instruction` flag is `False` — `instructions_for_question2`
builds `Node("root", "OneShotAnswer", question=prompt)` and leaves the flag
at its default — refuting "every chain produced by the chain builders has a
root node with is_instruction=True". -/
theorem C8_counterexample :
    ((nodes_for_answer_with_review qC (some pC)).rootNode).data.is_instruction = false ∧
    ¬ ((nodes_for_answer_with_review qC (some pC)).rootNode).data.is_instruction = true := by
  exact ⟨rfl, by decide⟩

/-- C8 (amended): both builder chains are strictly linear (each node links to
the previously built node; linearity and acyclicity are structural in this
embedding). The `nodes_for_chained_answer` chain has the
`instructions_for_question` node as root, carrying the full instruction text
with `is_instruction=True`, followed by the four titled follow-up nodes. The
`nodes_for_answer_with_review` chain instead has the
`instructions_for_question2` node as root — titled "OneShotAnswer" with
`is_instruction=False`, so its text is sent as the user turn of its own
request rather than through the instruction channel — followed by one
"Reviewed Answer" node. -/
theorem C8_amended (q : Question) (p : Project) :
    (nodes_for_chained_answer q (some p)).rootNode = instructions_for_question q (some p) ∧
    ((nodes_for_chained_answer q (some p)).rootNode).data.is_instruction = true ∧
    (nodes_for_chained_answer q (some p)).chainData.map
        (fun d => (d.id, d.title, d.is_instruction)) =
      [("flowchart", "Summary Flowchart", false),
       ("detailed", "Detailed Response", false),
       ("twominute", "Two Minute Answer", false),
       ("oneminute", "One minute answer", false),
       ("root", "", true)] ∧
    (nodes_for_answer_with_review q (some p)).rootNode = instructions_for_question2 q (some p) ∧
    ((nodes_for_answer_with_review q (some p)).rootNode).data.is_instruction = false ∧
    (nodes_for_answer_with_review q (some p)).chainData.map
        (fun d => (d.id, d.title, d.is_instruction)) =
      [("reviewed", "Reviewed Answer", false),
       ("root", "OneShotAnswer", false)] :=
  ⟨rfl, rfl, rfl, rfl, rfl, rfl⟩

/-! Claim C9. -/

/-- C9, counterexample: in a run where exactly one node ("oneminute") has
completed (the service fails from the second call on), the rewritten
`index.md` is not "question header plus the sections of the so-far-completed
nodes only": it also contains the title sections, with empty bodies, of the
three not-yet-completed nodes further down the chain. -/
theorem C9_counterexample :
    wFail.files "r/a_____s_____0/P/index.md" = some (FileData.text
      ("# Q\n\n# One minute answer\nout0\n\n# Two Minute Answer\n\n\n" ++
       "# Detailed Response\n\n\n# Summary Flowchart\n\n\n")) ∧
    ¬ wFail.files "r/a_____s_____0/P/index.md" = some (FileData.text
      "# Q\n\n# One minute answer\nout0\n\n") := by
  exact ⟨rfl, by decide⟩

/-- C9 (amended): `index.md` is rewritten (not appended) on every node
completion, and its body is the question header followed, oldest first, by a
section for EVERY titled node of the whole chain — completed or not — each
section being the node's title plus its current response text (empty for
nodes not yet completed); untitled nodes (the instruction root) are
excluded. After the final node completes this coincides with the original
claim. Shown on a full run and on a run that dies after the first node. -/
theorem C9_amended (f : Nat → Resp) :
    (Question.runProject (fun n => some (f n)) qA pC initWorld).files
        "r/a_____s_____0/P/index.md" = some (FileData.text
      ("# Q\n\n" ++
       "# One minute answer\n" ++ (f 0).output_text ++ "\n\n" ++
       "# Two Minute Answer\n" ++ (f 1).output_text ++ "\n\n" ++
       "# Detailed Response\n" ++ (f 2).output_text ++ "\n\n" ++
       "# Summary Flowchart\n" ++ (f 3).output_text ++ "\n\n")) ∧
    (Question.runProject (fun n => if n = 0 then some (f 0) else none) qA pC initWorld).files
        "r/a_____s_____0/P/index.md" = some (FileData.text
      ("# Q\n\n" ++
       "# One minute answer\n" ++ (f 0).output_text ++ "\n\n" ++
       "# Two Minute Answer\n\n\n# Detailed Response\n\n\n# Summary Flowchart\n\n\n")) := by
  constructor
  · show some (FileData.text
        ("# " ++ "Q" ++ "\n\n" ++
         ("# " ++ "One minute answer" ++ "\n" ++ (f 0).output_text ++ "\n\n" ++
          ("# " ++ "Two Minute Answer" ++ "\n" ++ (f 1).output_text ++ "\n\n" ++
           ("# " ++ "Detailed Response" ++ "\n" ++ (f 2).output_text ++ "\n\n" ++
            ("# " ++ "Summary Flowchart" ++ "\n" ++ (f 3).output_text ++ "\n\n" ++ "")))))) = _
    simp [← String.append_assoc, String.append_empty]
  · show some (FileData.text
        ("# " ++ "Q" ++ "\n\n" ++
         ("# " ++ "One minute answer" ++ "\n" ++ (f 0).output_text ++ "\n\n" ++
          ("# " ++ "Two Minute Answer" ++ "\n" ++ "" ++ "\n\n" ++
           ("# " ++ "Detailed Response" ++ "\n" ++ "" ++ "\n\n" ++
            ("# " ++ "Summary Flowchart" ++ "\n" ++ "" ++ "\n\n" ++ "")))))) = _
    simp [← String.append_assoc, String.append_empty, String.empty_append]

/-! Claim C10. -/

/-- C10, counterexample: the sanitization collapses only SPACE characters,
not all whitespace. The areas of `qT1` ("a", tab, "b") and `qT2` ("a b")
consist of the same sequence of non-whitespace tokens and differ only in
whitespace, yet their `base_id`s and their project folder paths differ: a
tab strictly inside a space-separated piece survives
`"_".join(p.strip() for p in s.split(" ") if p.strip())`. -/
theorem C10_counterexample :
    wsTokens qT1.area = wsTokens qT2.area ∧
    qT1.area ≠ qT2.area ∧
    qT1.base_id ≠ qT2.base_id ∧
    qT1.folder_for_project pC ≠ qT2.folder_for_project pC := by
  exact ⟨rfl, by decide, by decide, by decide⟩

/-- C10 (amended): the sanitization is non-injective on space-differences:
whenever two areas (resp. subtopics) agree on their sequences of
space-separated, stripped, non-empty pieces — i.e. differ only in the number
of space separators or in whitespace at the edges of those pieces — and the
ids, root folders and (same condition) project names agree, then `base_id`,
`folder_for_project` and every per-file path coincide, so the two runs write
to the same files. (Whitespace other than a space character strictly inside
a piece defeats the collision, per the counterexample.) -/
theorem C10_amended (q1 q2 : Question) (p1 p2 : Project)
    (ha : spaceTokens q1.area = spaceTokens q2.area)
    (hs : spaceTokens q1.subtopic = spaceTokens q2.subtopic)
    (hid : q1.id = q2.id) (hrf : q1.rootfolder = q2.rootfolder)
    (hp : spaceTokens p1.name = spaceTokens p2.name) :
    q1.base_id = q2.base_id ∧
    q1.folder_for_project p1 = q2.folder_for_project p2 ∧
    ∀ (name ext : String), q1.path_for_project_file p1 name ext =
      q2.path_for_project_file p2 name ext := by
  simp only [Question.base_id, Question.folder_for_project, Question.path_for_project_file,
    ha, hs, hid, hrf, hp]
  simp

/-- C10 witness: the hypotheses of `C10_amended` hold for the concrete pairs
`qS1`/`qS2` (areas "a b" and "a  b") and `pS1`/`pS2` (names "x y" and
"x  y"), and the conclusion follows. -/
theorem C10_witness :
    (spaceTokens qS1.area = spaceTokens qS2.area ∧
     spaceTokens qS1.subtopic = spaceTokens qS2.subtopic ∧
     qS1.id = qS2.id ∧ qS1.rootfolder = qS2.rootfolder ∧
     spaceTokens pS1.name = spaceTokens pS2.name ∧
     qS1 ≠ qS2 ∧ pS1 ≠ pS2) ∧
    (qS1.base_id = qS2.base_id ∧
     qS1.folder_for_project pS1 = qS2.folder_for_project pS2 ∧
     ∀ (name ext : String), qS1.path_for_project_file pS1 name ext =
       qS2.path_for_project_file pS2 name ext) :=
  ⟨⟨by decide, by decide, by decide, by decide, by decide, by decide, by decide⟩,
   C10_amended qS1 qS2 pS1 pS2 (by decide) (by decide) (by decide) (by decide) (by decide)⟩

end SDL
